import Mathlib

/-!
Shallow embedding of the agent repository (agent_base.py, sanitize_data_agent.py,
summarize_tool.py): the retry-wrapped remote chat-completion call and the two text
tools built on it, together with theorems settling the frozen claims about them.

The remote endpoint (`client.chat.completions.create`) is modelled by a stub oracle
giving, per attempt, either a raised exception or a list of candidate messages;
everything else is translated directly from the Python source.
-/

deriving instance DecidableEq for Except

namespace MedAgents

/-- A chat message: a role ("system" / "user" / "assistant") paired with text
content, as passed to and returned from the chat-completion endpoint. -/
structure Message where
  role : String
  content : String
deriving DecidableEq, Repr

/-- Oracle for the remote endpoint: given the request messages and the attempt
index (0-based), either the call raises (`Except.error ()`) or it returns a
response whose `choices` is the given list of candidate messages. -/
def Stub : Type := List Message → Nat → Except Unit (List Message)

/-- What one iteration of the retry loop in `AgentBase.call_openai`
(agent_base.py lines 59-88) extracts from attempt `i`: a raising call, or a
response with zero candidates (line 73-74 raises
`OpenAIError("No choices in OpenAI response")` inside the same `try`), both land
in the `except` branch and count as one failed attempt (`none`); otherwise the
iteration returns `response.choices[0].message` (`some`). -/
def attemptOutcome (stub : Stub) (msgs : List Message) (i : Nat) : Option Message :=
  match stub msgs i with
  | Except.error _ => none
  | Except.ok choices => choices.head?

/-- The `while retries < self.max_retries` loop of `AgentBase.call_openai`, with
`fuel = max_retries - retries` iterations remaining and `i` the index of the next
attempt. Returns the message of the first successful attempt (if any) together
with the number of times the remote endpoint was invoked (each loop iteration
issues exactly one `client.chat.completions.create` call). -/
def callGo (stub : Stub) (msgs : List Message) : Nat → Nat → Option Message × Nat
  | _, 0 => (none, 0)
  | i, fuel + 1 =>
    match attemptOutcome stub msgs i with
    | some m => (some m, 1)
    | none =>
      let rest := callGo stub msgs (i + 1) fuel
      (rest.1, rest.2 + 1)

/-- Result of `AgentBase.call_openai`: `Except.error r` models line 90,
`raise OpenAIError(f"Failed to get response after {self.max_retries} retries")`,
carrying the configured retry count `r`; `calls` counts invocations of the remote
endpoint. -/
structure CallResult where
  result : Except Nat Message
  calls : Nat
deriving DecidableEq, Repr

/-- `AgentBase.call_openai` (agent_base.py lines 38-90): attempt the remote call
up to `maxRetries` times; return `response.choices[0].message` of the first
successful attempt; after `maxRetries` failed attempts raise `OpenAIError`
carrying `self.max_retries`. `temperature` and `max_tokens` are forwarded to the
remote endpoint and do not influence the retry logic, so they are absorbed into
the stub. -/
def call_openai (maxRetries : Nat) (msgs : List Message) (stub : Stub) : CallResult :=
  match callGo stub msgs 0 maxRetries with
  | (some m, c) => ⟨Except.ok m, c⟩
  | (none, c) => ⟨Except.error maxRetries, c⟩

/-- Python whitespace as stripped by `str.strip()` (ASCII range: space, tab,
newline, carriage return, vertical tab, form feed). -/
def pyIsSpace (c : Char) : Bool :=
  c == ' ' || c == '\t' || c == '\n' || c == '\r' || c == '\x0b' || c == '\x0c'

/-- Drop leading Python whitespace from a character list. -/
def dropSpace : List Char → List Char
  | [] => []
  | c :: cs => if pyIsSpace c then dropSpace cs else c :: cs

/-- Python `s.strip()`: remove leading and trailing whitespace. -/
def pyStrip (s : String) : String :=
  String.mk ((dropSpace ((dropSpace s.data).reverse)).reverse)

/-- Test whether `hay` begins with `needle` (first argument is the needle). -/
def matchesFront : List Char → List Char → Bool
  | [], _ => true
  | _ :: _, [] => false
  | a :: as, b :: bs => a == b && matchesFront as bs

/-- Python `needle in hay` (substring containment) on character lists. -/
def hasSubList (needle : List Char) : List Char → Bool
  | [] => matchesFront needle []
  | c :: rest => matchesFront needle (c :: rest) || hasSubList needle rest

/-- Python `needle in hay` on strings. -/
def pyContains (hay needle : String) : Bool :=
  hasSubList needle.data hay.data

/-- Python `s.split(sep)` for the non-empty separator `s0 :: sTail`, fuelled by
the length of the text: each step consumes at least one character, so starting
the fuel at the text length the fuel-0 fallback (returning the remainder
unsplit) is never reached. Matches are found left to right and do not
overlap, as in Python. -/
def splitGo (s0 : Char) (sTail : List Char) : Nat → List Char → List (List Char)
  | _, [] => [[]]
  | 0, l => [l]
  | fuel + 1, c :: rest =>
    if matchesFront (s0 :: sTail) (c :: rest) then
      [] :: splitGo s0 sTail fuel (rest.drop sTail.length)
    else
      match splitGo s0 sTail fuel rest with
      | [] => [[c]]
      | p :: ps => (c :: p) :: ps

/-- Python `s.split(sep)` on strings. Both separators used by the source
("\nMedical terms:" and ",") are non-empty; an empty separator is a `ValueError`
in Python and is unused here. -/
def pySplit (s sep : String) : List String :=
  match sep.data with
  | [] => [s]
  | c :: cs => (splitGo c cs s.data.length s.data).map String.mk

/-- Error taxonomy observable from a tool's `execute`: `invalidInput` models the
`ValueError`s of input validation, `remoteCall r` models the `OpenAIError` from
`call_openai` carrying the retry count `r`, and `unexpected` models any other
exception (the spec's `UnexpectedError`), carrying its message. -/
inductive ToolError where
  | invalidInput (msg : String)
  | remoteCall (retries : Nat)
  | unexpected (msg : String)
deriving DecidableEq, Repr

/-- The two `except` clauses closing each tool's `try` block
(sanitize_data_agent.py lines 216-221, summarize_tool.py lines 310-315): both
log and then bare-`raise`, re-raising the active exception unchanged — same
error kind, same payload, no further attempt. -/
def toolExceptHandler (e : ToolError) : ToolError := e

/-- Classifier for validation failures. -/
def isInvalidInput {α : Type} : Except ToolError α → Bool
  | Except.error (ToolError.invalidInput _) => true
  | _ => false

/-- Outcome of one `execute` invocation: its result and the number of times the
remote endpoint was invoked during it. -/
structure ExecOutcome (α : Type) where
  result : Except ToolError α
  calls : Nat
deriving DecidableEq, Repr

/-- The `SanitizedResponse` TypedDict of sanitize_data_agent.py. -/
structure SanitizedResponse where
  sanitized_data : String
  original_length : Nat
  sanitized_length : Nat
  phi_detected : Bool
deriving DecidableEq, Repr

/-- Default PHI categories set in `SanitizeDataTool.__init__` (lines 131-141). -/
def defaultPhiTypes : List String :=
  ["names", "dates", "addresses", "phone numbers", "email addresses", "SSN",
   "medical record numbers", "account numbers", "biometric identifiers"]

/-- System prompt of `SanitizeDataTool.execute` (lines 163-170). -/
def sanitizeSystemPrompt : String :=
  "You are an AI assistant specialized in sanitizing medical data. " ++
  "Remove all Protected Health Information (PHI) including: " ++
  String.intercalate ", " defaultPhiTypes ++
  ". Replace removed PHI with appropriate placeholders (e.g., [NAME], [DATE]). " ++
  "Preserve the medical context and meaning while ensuring HIPAA compliance."

/-- The two-message request built by `SanitizeDataTool.execute` (lines 172-178). -/
def sanitizeMessages (medical_data : String) : List Message :=
  [⟨"system", sanitizeSystemPrompt⟩,
   ⟨"user", "Sanitize the following medical data:\n\n" ++ medical_data⟩]

/-- The four placeholder markers of the PHI heuristic (line 197). -/
def phiPlaceholders : List String := ["[NAME]", "[DATE]", "[ADDRESS]", "[PHONE]"]

/-- PHI-detection heuristic (lines 194-198):
`any(placeholder in sanitized_data for placeholder in [...])`. -/
def detectPhi (sanitized : String) : Bool :=
  phiPlaceholders.any fun p => pyContains sanitized p

/-- `SanitizeDataTool.execute` (sanitize_data_agent.py lines 143-221).
Validation (lines 156-161) precedes the remote call; on success the reply text
`response["content"]` becomes `sanitized_data` and the metadata record is built
(lines 192-205); a failing remote call passes through the re-raising handlers
(lines 216-221). Note `call_openai`'s docstring promises the message content
while line 81 of agent_base.py returns the message object — the mismatch is
recorded by the theorem on `call_openai` below; here the content is consumed,
as `response["content"]` extracts it. -/
def executeSanitize (maxRetries : Nat) (stub : Stub) (medical_data : String) :
    ExecOutcome SanitizedResponse :=
  if medical_data = "" ∨ pyStrip medical_data = "" then
    ⟨Except.error (ToolError.invalidInput "Medical data cannot be empty"), 0⟩
  else if medical_data.length > 8000 then
    ⟨Except.error (ToolError.invalidInput "Input data exceeds maximum length"), 0⟩
  else
    match call_openai maxRetries (sanitizeMessages medical_data) stub with
    | ⟨Except.error r, c⟩ =>
      ⟨Except.error (toolExceptHandler (ToolError.remoteCall r)), c⟩
    | ⟨Except.ok msg, c⟩ =>
      let sanitized := msg.content
      ⟨Except.ok
        { sanitized_data := sanitized
          original_length := medical_data.length
          sanitized_length := sanitized.length
          phi_detected := detectPhi sanitized }, c⟩

/-- The `SummaryResponse` TypedDict of summarize_tool.py. -/
structure SummaryResponse where
  summary : String
  original_length : Nat
  summary_length : Nat
  medical_terms_identified : List String
deriving DecidableEq, Repr

/-- System prompt of `SummarizeTool.execute` (lines 274-285). -/
def summarizeSystemPrompt : String :=
  "You are a medical AI assistant specialized in summarizing healthcare content. " ++
  "Maintain clinical accuracy and preserve all critical medical information including: " ++
  "- Diagnoses, conditions, and symptoms\n" ++
  "- Medications, dosages, and treatments\n" ++
  "- Lab results and vital signs\n" ++
  "- Patient history and risk factors\n" ++
  "Use precise medical terminology and maintain a professional clinical tone. " ++
  "Also identify and list key medical terms used in the text."

/-- The two-message request built by `SummarizeTool.execute` (lines 272-291). -/
def summarizeMessages (prompt : String) : List Message :=
  [⟨"system", summarizeSystemPrompt⟩,
   ⟨"user", "Please provide a clinical summary of the following medical text, " ++
     "followed by a list of key medical terms used:\n\n" ++ prompt⟩]

/-- Reply parsing of `SummarizeTool.execute` (lines 296-301): split the reply on
"\nMedical terms:"; `parts[0].strip()` is the summary; when there is more than
one part, `parts[1]` is split on commas and each term stripped. `pySplit` never
returns an empty list, so `headD ""` is exactly `parts[0]`. -/
def parseSummarizeReply (reply : String) : String × List String :=
  let parts := pySplit reply "\nMedical terms:"
  let summary := pyStrip (parts.headD "")
  let terms :=
    match parts with
    | _ :: p1 :: _ => (pySplit p1 ",").map pyStrip
    | _ => []
  (summary, terms)

/-- `SummarizeTool.execute` (summarize_tool.py lines 252-315). Validation
(lines 265-270) precedes the remote call; the reply text is parsed by
`parseSummarizeReply` and the metadata record built (lines 296-308); a failing
remote call passes through the re-raising handlers (lines 310-315). Line 297
applies `str.split` to the reply, i.e. consumes the reply's text content (see
the note on `executeSanitize`). -/
def executeSummarize (maxRetries : Nat) (stub : Stub) (prompt : String) :
    ExecOutcome SummaryResponse :=
  if prompt = "" ∨ pyStrip prompt = "" then
    ⟨Except.error (ToolError.invalidInput "Prompt cannot be empty"), 0⟩
  else if prompt.length > 10000 then
    ⟨Except.error (ToolError.invalidInput "Prompt exceeds maximum length"), 0⟩
  else
    match call_openai maxRetries (summarizeMessages prompt) stub with
    | ⟨Except.error r, c⟩ =>
      ⟨Except.error (toolExceptHandler (ToolError.remoteCall r)), c⟩
    | ⟨Except.ok msg, c⟩ =>
      let parsed := parseSummarizeReply msg.content
      ⟨Except.ok
        { summary := parsed.1
          original_length := prompt.length
          summary_length := parsed.1.length
          medical_terms_identified := parsed.2 }, c⟩

/-- Agent identity state set by `AgentBase.__init__` (agent_base.py lines 28-31). -/
structure Agent where
  name : String
  max_retries : Nat
  verbose : Bool
deriving DecidableEq, Repr

/-- State-passing reading of `AgentBase.call_openai`: the method reads
`self.name`, `self.max_retries` and `self.verbose` and assigns no attribute, so
the post-state is the threaded `self` itself. -/
def callOpenaiS (a : Agent) (msgs : List Message) (stub : Stub) : CallResult × Agent :=
  (call_openai a.max_retries msgs stub, a)

/-- State-passing reading of `SanitizeDataTool.execute`: no attribute of `self`
is assigned, so the post-state is the threaded agent. -/
def executeSanitizeS (a : Agent) (stub : Stub) (medical_data : String) :
    ExecOutcome SanitizedResponse × Agent :=
  (executeSanitize a.max_retries stub medical_data, a)

/-- State-passing reading of `SummarizeTool.execute`: no attribute of `self`
is assigned, so the post-state is the threaded agent. -/
def executeSummarizeS (a : Agent) (stub : Stub) (prompt : String) :
    ExecOutcome SummaryResponse × Agent :=
  (executeSummarize a.max_retries stub prompt, a)

/-- Reply parsing as the claim words it: split on the bare literal marker
"Medical terms:" (no leading newline); kept for comparison with the source's
`parseSummarizeReply`, which splits on "\nMedical terms:". -/
def claimParseSummarizeReply (reply : String) : String × List String :=
  let parts := pySplit reply "Medical terms:"
  let summary := pyStrip (parts.headD "")
  let terms :=
    match parts with
    | _ :: p1 :: _ => (pySplit p1 ",").map pyStrip
    | _ => []
  (summary, terms)

/-- Reply parsing as the amended claim words it: split on the literal marker
"\nMedical terms:" (the marker is preceded by a newline); the text before the
first marker, trimmed, is the summary; when a marker occurs, the text after the
first marker up to the next occurrence (if any) is split on commas with each
segment trimmed; otherwise the term list is empty. -/
def amendedParseSummarizeReply (reply : String) : String × List String :=
  let parts := pySplit reply "\nMedical terms:"
  let summary := pyStrip (parts.headD "")
  let terms :=
    match parts with
    | _ :: p1 :: _ => (pySplit p1 ",").map pyStrip
    | _ => []
  (summary, terms)

/-- Stub that fails (raises) on every attempt. -/
def allFailStub : Stub := fun _ _ => Except.error ()

/-- Stub that raises on attempt 0 and returns one candidate from attempt 1 on. -/
def failThenOkStub : Stub := fun _ i =>
  if i = 0 then Except.error () else Except.ok [⟨"assistant", "ok"⟩]

/-- Stub that always returns a single candidate reply. -/
def okStub : Stub := fun _ _ => Except.ok [⟨"assistant", "Sanitized [NAME] text"⟩]

/-- Stub returning one candidate whose content carries no placeholder marker. -/
def plainStub : Stub := fun _ _ => Except.ok [⟨"assistant", "Sanitized text."⟩]

/-- Concrete successful sanitize result used as a witness instance. -/
def sanDemoResponse : SanitizedResponse := ⟨"Sanitized [NAME] text", 3, 21, true⟩

/-- If every one of the `fuel` remaining attempts starting at index `i` fails,
the retry loop performs exactly `fuel` more invocations and finds no message. -/
theorem callGo_all_fail (stub : Stub) (msgs : List Message) :
    ∀ (fuel i : Nat), (∀ j, j < fuel → attemptOutcome stub msgs (i + j) = none) →
      callGo stub msgs i fuel = (none, fuel) := by
  intro fuel
  induction fuel with
  | zero => intro i _; rfl
  | succ f ih =>
    intro i h
    have h0 : attemptOutcome stub msgs i = none := by
      have := h 0 (Nat.succ_pos f); simpa using this
    have hrest : callGo stub msgs (i + 1) f = (none, f) := by
      apply ih
      intro j hj
      have e : i + 1 + j = i + (j + 1) := by omega
      rw [e]
      exact h (j + 1) (by omega)
    simp [callGo, h0, hrest]

/-- If the attempts at indices `i, …, i+k-1` fail and the attempt at index
`i+k` succeeds with message `m0`, with `k` strictly below the remaining fuel,
the retry loop returns `m0` after exactly `k + 1` invocations. -/
theorem callGo_first_success (stub : Stub) (msgs : List Message) (m0 : Message) :
    ∀ (k fuel i : Nat), k < fuel →
      (∀ j, j < k → attemptOutcome stub msgs (i + j) = none) →
      attemptOutcome stub msgs (i + k) = some m0 →
      callGo stub msgs i fuel = (some m0, k + 1) := by
  intro k
  induction k with
  | zero =>
    intro fuel i hk hfail hsucc
    cases fuel with
    | zero => omega
    | succ f =>
      have h0 : attemptOutcome stub msgs i = some m0 := by simpa using hsucc
      simp [callGo, h0]
  | succ k ih =>
    intro fuel i hk hfail hsucc
    cases fuel with
    | zero => omega
    | succ f =>
      have h0 : attemptOutcome stub msgs i = none := by
        have := hfail 0 (Nat.succ_pos k); simpa using this
      have hrest : callGo stub msgs (i + 1) f = (some m0, k + 1) := by
        apply ih f (i + 1) (by omega)
        · intro j hj
          have e : i + 1 + j = i + (j + 1) := by omega
          rw [e]
          exact hfail (j + 1) (by omega)
        · have e : i + 1 + k = i + (k + 1) := by omega
          rw [e]
          exact hsucc
      simp [callGo, h0, hrest]

/-- `call_openai` under a stub failing on every one of the `m` attempts:
the configured retry count is raised and the endpoint was invoked `m` times. -/
theorem call_openai_exhaust (m : Nat) (msgs : List Message) (stub : Stub)
    (h : ∀ j, j < m → attemptOutcome stub msgs j = none) :
    call_openai m msgs stub = ⟨Except.error m, m⟩ := by
  have hgo := callGo_all_fail stub msgs m 0 (by intro j hj; simpa using h j hj)
  simp [call_openai, hgo]

/-- `call_openai` under a stub failing on the first `k` attempts and succeeding
on the next: the successful message is returned after `k + 1` invocations. -/
theorem call_openai_success (m k : Nat) (msgs : List Message) (stub : Stub) (m0 : Message)
    (hk : k < m) (hfail : ∀ j, j < k → attemptOutcome stub msgs j = none)
    (hsucc : attemptOutcome stub msgs k = some m0) :
    call_openai m msgs stub = ⟨Except.ok m0, k + 1⟩ := by
  have hgo := callGo_first_success stub msgs m0 k m 0 hk
    (by intro j hj; simpa using hfail j hj) (by simpa using hsucc)
  simp [call_openai, hgo]

/-- When the separator occurs nowhere in the text, `splitGo` leaves the text in
one piece, for any fuel. -/
theorem splitGo_no_occ (c : Char) (cs : List Char) :
    ∀ (fuel : Nat) (l : List Char), hasSubList (c :: cs) l = false →
      splitGo c cs fuel l = [l] := by
  intro fuel
  induction fuel with
  | zero =>
    intro l _
    cases l with
    | nil => rfl
    | cons a as => rfl
  | succ f ih =>
    intro l h
    cases l with
    | nil => rfl
    | cons a as =>
      rw [hasSubList] at h
      have h1 : matchesFront (c :: cs) (a :: as) = false := by
        cases hx : matchesFront (c :: cs) (a :: as)
        · rfl
        · rw [hx] at h; simp at h
      have h2 : hasSubList (c :: cs) as = false := by
        cases hx : hasSubList (c :: cs) as
        · rfl
        · rw [hx] at h; simp at h
      simp [splitGo, h1, ih as h2]

/-- Rebuilding a string from its character data is the identity. -/
theorem stringMk_data (s : String) : String.mk s.data = s := rfl

/-- Python `split` on a separator that does not occur in the string returns the
string in one piece. -/
theorem pySplit_no_occ (s sep : String) (hne : sep ≠ "")
    (h : pyContains s sep = false) : pySplit s sep = [s] := by
  cases hd : sep.data with
  | nil =>
    exfalso
    apply hne
    cases sep with
    | mk d =>
      have hd2 : d = [] := hd
      rw [hd2]
  | cons c cs =>
    have hsub : hasSubList (c :: cs) s.data = false := by
      rw [pyContains, hd] at h
      exact h
    simp only [pySplit, hd]
    rw [splitGo_no_occ c cs s.data.length s.data hsub]
    simp [stringMk_data]

/-- C1: for every message list, if the remote call fails (raises or returns
zero candidates) on the first `k` attempts with `k < max_retries` and succeeds
on attempt `k + 1`, then `call_openai` returns the successful reply and the
remote endpoint was invoked exactly `k + 1` times — success short-circuits
further retries. -/
theorem C1_retry_success (m k : Nat) (msgs : List Message) (stub : Stub)
    (m0 : Message) (hk : k < m)
    (hfail : ∀ j, j < k → attemptOutcome stub msgs j = none)
    (hsucc : attemptOutcome stub msgs k = some m0) :
    call_openai m msgs stub = ⟨Except.ok m0, k + 1⟩ :=
  call_openai_success m k msgs stub m0 hk hfail hsucc

/-- Witness for C1: with `max_retries = 2`, a stub raising on attempt 0 and
returning one candidate on attempt 1 makes `call_openai` return that candidate
after exactly 2 invocations. -/
theorem C1_retry_success_witness :
    call_openai 2 [⟨"user", "hi"⟩] failThenOkStub =
      ⟨Except.ok ⟨"assistant", "ok"⟩, 2⟩ :=
  C1_retry_success 2 1 [⟨"user", "hi"⟩] failThenOkStub ⟨"assistant", "ok"⟩
    (by decide) (by decide) (by decide)

/-- C2: for every message list, if every one of the `max_retries` attempts
fails — a raising call or a zero-candidate reply each counting as one failed
attempt — then `call_openai` raises `OpenAIError` carrying the configured retry
count, and the remote endpoint was invoked exactly `max_retries` times. -/
theorem C2_retry_exhaustion (m : Nat) (msgs : List Message) (stub : Stub)
    (hfail : ∀ j, j < m → attemptOutcome stub msgs j = none) :
    call_openai m msgs stub = ⟨Except.error m, m⟩ :=
  call_openai_exhaust m msgs stub hfail

/-- Witness for C2: with `max_retries = 3` and a stub raising on every attempt,
`call_openai` raises the error carrying 3 after exactly 3 invocations. -/
theorem C2_retry_exhaustion_witness :
    call_openai 3 [⟨"user", "hi"⟩] allFailStub = ⟨Except.error 3, 3⟩ :=
  C2_retry_exhaustion 3 [⟨"user", "hi"⟩] allFailStub (by decide)

/-- C3 (code evaluated at the failing input): on a successful attempt,
`call_openai` returns `response.choices[0].message` — the full role/content
message object — and not the candidate's text content string, although its own
docstring promises "The message content from OpenAI's response" and
`SummarizeTool.execute` applies `str.split` to the returned value. -/
theorem C3_call_returns_message_object :
    (call_openai 1 [⟨"user", "hi"⟩] plainStub).result =
      Except.ok ⟨"assistant", "Sanitized text."⟩ := by decide

/-- C5 counterexample: the source splits on the literal "\nMedical terms:",
not on the bare "Medical terms:" the claim names. On the reply
"Summary. Medical terms: flu" (marker present but not preceded by a newline)
the source keeps the whole trimmed reply as the summary with an empty term
list, while the claim's reading would give summary "Summary." and term list
["flu"]. -/
theorem C5_marker_counterexample :
    parseSummarizeReply "Summary. Medical terms: flu" =
      ("Summary. Medical terms: flu", []) ∧
    claimParseSummarizeReply "Summary. Medical terms: flu" =
      ("Summary.", ["flu"]) ∧
    parseSummarizeReply "Summary. Medical terms: flu" ≠
      claimParseSummarizeReply "Summary. Medical terms: flu" := by decide

/-- C5 (amended): the summarize tool splits the reply on the literal marker
"\nMedical terms:" (the marker preceded by a newline); the text before the
first marker, trimmed, is the summary; the text after the first marker (up to
the next occurrence, if any) is split on commas with each segment trimmed to
form the term list; with no marker, the whole trimmed reply is the summary and
the term list is empty. In particular the reply
"Summary text.\nMedical terms: diabetes, hypertension" yields summary
"Summary text." and term list ["diabetes", "hypertension"]. -/
theorem C5_summary_parsing_amended (reply : String) :
    parseSummarizeReply reply = amendedParseSummarizeReply reply ∧
    (pyContains reply "\nMedical terms:" = false →
      (parseSummarizeReply reply).1 = pyStrip reply ∧
      (parseSummarizeReply reply).2 = []) ∧
    parseSummarizeReply "Summary text.\nMedical terms: diabetes, hypertension" =
      ("Summary text.", ["diabetes", "hypertension"]) := by
  refine ⟨rfl, ?_, by decide⟩
  intro h
  have hsplit : pySplit reply "\nMedical terms:" = [reply] :=
    pySplit_no_occ reply "\nMedical terms:" (by decide) h
  simp [parseSummarizeReply, hsplit]

/-- Witness for C5 (amended): a reply with no marker is returned whole as the
trimmed summary with an empty term list. -/
theorem C5_summary_parsing_amended_witness :
    (parseSummarizeReply "Just a plain summary.").1 =
      pyStrip "Just a plain summary." ∧
    (parseSummarizeReply "Just a plain summary.").2 = [] :=
  (C5_summary_parsing_amended "Just a plain summary.").2.1 (by decide)

/-- C8: execute is deterministic in the reply — for a fixed input and a fixed
stubbed remote behaviour, two runs of either tool's `execute` yield identical
structured results; the parsing keeps no hidden mutable state. -/
theorem C8_execute_deterministic (m1 m2 : Nat) (stub1 stub2 : Stub)
    (s1 s2 p1 p2 : String) (hm : m1 = m2) (hstub : stub1 = stub2)
    (hs : s1 = s2) (hp : p1 = p2) :
    executeSanitize m1 stub1 s1 = executeSanitize m2 stub2 s2 ∧
    executeSummarize m1 stub1 p1 = executeSummarize m2 stub2 p2 := by
  subst hm
  subst hstub
  subst hs
  subst hp
  exact ⟨rfl, rfl⟩

/-- Witness for C8: two runs of `executeSanitize` on the same input and stub
coincide. -/
theorem C8_execute_deterministic_witness :
    executeSanitize 1 allFailStub "a" = executeSanitize 1 allFailStub "a" :=
  (C8_execute_deterministic 1 1 allFailStub allFailStub "a" "a" "b" "b"
    rfl rfl rfl rfl).1

/-- C9: the agent's identity fields — name, retry budget and verbosity flag —
are immutable after construction: neither `call_openai` nor either tool's
`execute` changes any of them (the post-state equals the pre-state). -/
theorem C9_agent_immutable (a : Agent) (msgs : List Message) (stub : Stub)
    (s p : String) :
    (callOpenaiS a msgs stub).2 = a ∧
    (executeSanitizeS a stub s).2 = a ∧
    (executeSummarizeS a stub p).2 = a ∧
    (executeSanitizeS a stub s).2.name = a.name ∧
    (executeSanitizeS a stub s).2.max_retries = a.max_retries ∧
    (executeSanitizeS a stub s).2.verbose = a.verbose :=
  ⟨rfl, rfl, rfl, rfl, rfl, rfl⟩

/-- C4: either tool's `execute` raises the validation `ValueError` exactly when
the input is empty, all-whitespace, or longer than the tool's limit (8000
characters for sanitize, 10000 for summarize) — so input at the limit passes
validation and one character over fails — and a validation failure is raised
before any remote call is attempted (the remote call count is zero). -/
theorem C4_input_validation (m : Nat) (stub : Stub) (s : String) :
    (isInvalidInput (executeSanitize m stub s).result = true ↔
      (s = "" ∨ pyStrip s = "" ∨ s.length > 8000)) ∧
    (isInvalidInput (executeSanitize m stub s).result = true →
      (executeSanitize m stub s).calls = 0) ∧
    (isInvalidInput (executeSummarize m stub s).result = true ↔
      (s = "" ∨ pyStrip s = "" ∨ s.length > 10000)) ∧
    (isInvalidInput (executeSummarize m stub s).result = true →
      (executeSummarize m stub s).calls = 0) := by
  refine ⟨?_, ?_, ?_, ?_⟩
  · unfold executeSanitize
    split
    · rename_i hc
      simp [isInvalidInput]
      tauto
    · split
      · rename_i hc1 hc2
        simp [isInvalidInput]
        tauto
      · rename_i hc1 hc2
        split
        · simp [isInvalidInput, toolExceptHandler]
          exact ⟨fun h => hc1 (Or.inl h), fun h => hc1 (Or.inr h), by omega⟩
        · simp [isInvalidInput]
          exact ⟨fun h => hc1 (Or.inl h), fun h => hc1 (Or.inr h), by omega⟩
  · unfold executeSanitize
    split
    · intro _; rfl
    · split
      · intro _; rfl
      · split
        · simp [isInvalidInput, toolExceptHandler]
        · simp [isInvalidInput]
  · unfold executeSummarize
    split
    · rename_i hc
      simp [isInvalidInput]
      tauto
    · split
      · rename_i hc1 hc2
        simp [isInvalidInput]
        tauto
      · rename_i hc1 hc2
        split
        · simp [isInvalidInput, toolExceptHandler]
          exact ⟨fun h => hc1 (Or.inl h), fun h => hc1 (Or.inr h), by omega⟩
        · simp [isInvalidInput]
          exact ⟨fun h => hc1 (Or.inl h), fun h => hc1 (Or.inr h), by omega⟩
  · unfold executeSummarize
    split
    · intro _; rfl
    · split
      · intro _; rfl
      · split
        · simp [isInvalidInput, toolExceptHandler]
        · simp [isInvalidInput]

/-- Witness for C4: an all-whitespace input makes `executeSanitize` fail
validation with zero remote calls. -/
theorem C4_input_validation_witness :
    isInvalidInput (executeSanitize 1 allFailStub " ").result = true ∧
    (executeSanitize 1 allFailStub " ").calls = 0 := by
  have h := C4_input_validation 1 allFailStub " "
  have h1 := h.1.mpr (Or.inr (Or.inl (by decide)))
  exact ⟨h1, h.2.1 h1⟩

/-- C6: on every successful `executeSanitize`, `phi_detected` is true if and
only if the sanitized text contains at least one of the four fixed placeholder
substrings "[NAME]", "[DATE]", "[ADDRESS]", "[PHONE]". -/
theorem C6_phi_detection (m : Nat) (stub : Stub) (s : String)
    (r : SanitizedResponse)
    (h : (executeSanitize m stub s).result = Except.ok r) :
    r.phi_detected = true ↔
      (pyContains r.sanitized_data "[NAME]" = true ∨
       pyContains r.sanitized_data "[DATE]" = true ∨
       pyContains r.sanitized_data "[ADDRESS]" = true ∨
       pyContains r.sanitized_data "[PHONE]" = true) := by
  unfold executeSanitize at h
  split at h
  · simp at h
  · split at h
    · simp at h
    · split at h
      · simp at h
      · simp at h
        subst h
        simp [detectPhi, phiPlaceholders]

/-- Witness for C6: a sanitized reply containing "[NAME]" yields
`phi_detected = true`. -/
theorem C6_phi_detection_witness : sanDemoResponse.phi_detected = true :=
  (C6_phi_detection 1 okStub "abc" sanDemoResponse (by decide)).mpr
    (Or.inl (by decide))

/-- C7: after validation, a remote-call failure is propagated to the caller
unchanged — same error kind, same attempt-count payload — with no further
remote attempt by the tool (the call count stays at the retry budget of the
single `call_openai` invocation); and the tools' exception handlers re-raise
every other failure unchanged, preserving its message, without retrying. -/
theorem C7_error_propagation (m : Nat) (stub : Stub) (s p : String)
    (hs1 : pyStrip s ≠ "") (hs2 : s.length ≤ 8000)
    (hp1 : pyStrip p ≠ "") (hp2 : p.length ≤ 10000)
    (hfail : ∀ (msgs : List Message) (j : Nat), j < m →
      attemptOutcome stub msgs j = none) :
    (∀ e : ToolError, toolExceptHandler e = e) ∧
    (∀ msgText, toolExceptHandler (ToolError.unexpected msgText) =
      ToolError.unexpected msgText) ∧
    executeSanitize m stub s = ⟨Except.error (ToolError.remoteCall m), m⟩ ∧
    executeSummarize m stub p = ⟨Except.error (ToolError.remoteCall m), m⟩ := by
  refine ⟨fun e => rfl, fun msgText => rfl, ?_, ?_⟩
  · have hc1 : ¬(s = "" ∨ pyStrip s = "") := by
      rintro (h | h)
      · exact hs1 (by rw [h]; rfl)
      · exact hs1 h
    have hcall := call_openai_exhaust m (sanitizeMessages s) stub
      (hfail (sanitizeMessages s))
    unfold executeSanitize
    rw [if_neg hc1, if_neg (by omega), hcall]
    rfl
  · have hc1 : ¬(p = "" ∨ pyStrip p = "") := by
      rintro (h | h)
      · exact hp1 (by rw [h]; rfl)
      · exact hp1 h
    have hcall := call_openai_exhaust m (summarizeMessages p) stub
      (hfail (summarizeMessages p))
    unfold executeSummarize
    rw [if_neg hc1, if_neg (by omega), hcall]
    rfl

/-- Witness for C7: with a valid input and a stub failing every attempt,
`executeSanitize` surfaces the remote-call error carrying the retry budget 1
after exactly 1 invocation. -/
theorem C7_error_propagation_witness :
    executeSanitize 1 allFailStub "a" =
      ⟨Except.error (ToolError.remoteCall 1), 1⟩ :=
  (C7_error_propagation 1 allFailStub "a" "a" (by decide) (by decide)
    (by decide) (by decide) (fun _ _ _ => rfl)).2.2.1

/-- C10: for every successful `execute` of either tool, the length metadata is
consistent with the text fields: `original_length` is the length of the raw
input and `sanitized_length` (resp. `summary_length`) is the length of the
returned `sanitized_data` (resp. `summary`). -/
theorem C10_length_metadata :
    (∀ (m : Nat) (stub : Stub) (s : String) (r : SanitizedResponse),
      (executeSanitize m stub s).result = Except.ok r →
        r.original_length = s.length ∧
        r.sanitized_length = r.sanitized_data.length) ∧
    (∀ (m : Nat) (stub : Stub) (p : String) (r : SummaryResponse),
      (executeSummarize m stub p).result = Except.ok r →
        r.original_length = p.length ∧
        r.summary_length = r.summary.length) := by
  constructor
  · intro m stub s r h
    unfold executeSanitize at h
    split at h
    · simp at h
    · split at h
      · simp at h
      · split at h
        · simp at h
        · simp at h
          subst h
          exact ⟨rfl, rfl⟩
  · intro m stub p r h
    unfold executeSummarize at h
    split at h
    · simp at h
    · split at h
      · simp at h
      · split at h
        · simp at h
        · simp at h
          subst h
          exact ⟨rfl, rfl⟩

/-- Witness for C10: a concrete successful sanitize run has consistent length
metadata. -/
theorem C10_length_metadata_witness :
    sanDemoResponse.original_length = ("abc" : String).length ∧
    sanDemoResponse.sanitized_length = sanDemoResponse.sanitized_data.length :=
  C10_length_metadata.1 1 okStub "abc" sanDemoResponse (by decide)

end MedAgents
